import Mathlib

/-!
Shallow embedding of `scripts/ribbons and badges scraper.py`.

The script parses two HTML pages with BeautifulSoup and extracts
ribbon/badge records.  We embed the HTML documents as a tree of nodes
(element tags with attributes and children, plus raw text nodes) and
translate the BeautifulSoup operations the script uses:

* `find` / `find_all` search the descendants of a node in document
  (preorder) order; `class_=c` matches when `c` is among the whitespace
  separated tokens of the `class` attribute; `id=v` matches an exact
  `id` attribute; `id=True` matches any tag carrying an `id` attribute.
* `get_text(strip=True)` joins the stripped nonempty text fragments of
  the subtree (with `separator=' '` they are joined by single spaces).
* `find_next_sibling` scans the following siblings of a node, skipping
  text nodes.
* A BeautifulSoup `Tag` is always truthy, so `if tag:` on the result of
  `find` only tests that the result is not `None`.

Network fetching is represented by a `FetchResult` that either carries
the parsed document or a request error; `print` diagnostics are
collected as a list of strings; the `AttributeError` that the badge
scraper can raise (calling `.find_next_sibling` on `None`) is modelled
with `Except`.
-/

namespace PokeScraper

/-- An HTML DOM node: an element with tag name, attributes and children,
or a text node. -/
inductive Node where
  | text (s : String)
  | elem (tag : String) (attrs : List (String × String)) (children : List Node)
deriving Repr

mutual
/-- Structural equality of nodes (BeautifulSoup compares `Tag`s by name,
attributes and contents). -/
def Node.beq : Node → Node → Bool
  | .text s, .text t => s == t
  | .elem t1 a1 c1, .elem t2 a2 c2 => t1 == t2 && a1 == a2 && beqList c1 c2
  | _, _ => false

/-- Structural equality of node lists. -/
def beqList : List Node → List Node → Bool
  | [], [] => true
  | a :: as, b :: bs => Node.beq a b && beqList as bs
  | _, _ => false
end

mutual
/-- `Node.beq` decides propositional equality. -/
def Node.beq_iff : (a b : Node) → (Node.beq a b = true ↔ a = b)
  | .text s, .text t => by
      simp [Node.beq]
  | .text _, .elem _ _ _ => by
      simp [Node.beq]
  | .elem _ _ _, .text _ => by
      simp [Node.beq]
  | .elem t1 a1 c1, .elem t2 a2 c2 => by
      have h := beqList_iff c1 c2
      simp [Node.beq, h, and_assoc]

/-- `beqList` decides propositional equality of node lists. -/
def beqList_iff : (as bs : List Node) → (beqList as bs = true ↔ as = bs)
  | [], [] => by simp [beqList]
  | [], _ :: _ => by simp [beqList]
  | _ :: _, [] => by simp [beqList]
  | a :: as, b :: bs => by
      have h1 := Node.beq_iff a b
      have h2 := beqList_iff as bs
      simp [beqList, h1, h2]
end

instance : DecidableEq Node :=
  fun a b => decidable_of_iff (Node.beq a b = true) (Node.beq_iff a b)

/-- Tag name of an element node. -/
def Node.tagName : Node → Option String
  | .text _ => none
  | .elem t _ _ => some t

/-- Is this node an element (BeautifulSoup `Tag`)? -/
def Node.isElem : Node → Bool
  | .text _ => false
  | .elem _ _ _ => true

/-- Attribute lookup, `tag.attrs.get(key)` / `key in tag.attrs`. -/
def Node.getAttr (n : Node) (key : String) : Option String :=
  match n with
  | .text _ => none
  | .elem _ attrs _ => (attrs.find? (fun p => p.1 = key)).map (fun p => p.2)

/-- Does the node have the given tag name? -/
def Node.tagIs (n : Node) (t : String) : Bool :=
  n.tagName = some t

/-- Python `str.strip()`: drop leading and trailing whitespace. -/
def pyStrip (s : String) : String :=
  ⟨(((s.data.dropWhile Char.isWhitespace).reverse).dropWhile Char.isWhitespace).reverse⟩

/-- Python `s.startswith(pre)`. -/
def pyStartsWith (s pre : String) : Bool :=
  pre.data.isPrefixOf s.data

/-- Fuel-driven splitting scan for a nonempty separator: at each
position either the separator matches (cut there and skip it) or one
character is moved into the current piece. -/
def pySplitOnAux (pat : List Char) : Nat → List Char → List (List Char)
  | 0, s => [s]
  | _ + 1, [] => [[]]
  | fuel + 1, c :: rest =>
      if pat.isPrefixOf (c :: rest) then
        [] :: pySplitOnAux pat fuel (List.drop (pat.length - 1) rest)
      else
        match pySplitOnAux pat fuel rest with
        | [] => [[c]]
        | h :: t => (c :: h) :: t

/-- Python `s.split(pat)` for a nonempty separator: the pieces between
the non-overlapping leftmost occurrences of `pat`. -/
def pySplitOn (s pat : String) : List String :=
  if pat.data.isEmpty then [s]
  else (pySplitOnAux pat.data s.data.length s.data).map (fun l => ⟨l⟩)

/-- Python `s.replace(old, new)`: replace every occurrence. -/
def pyReplace (s old new : String) : String :=
  String.intercalate new (pySplitOn s old)

/-- Python `s.split()` with no arguments: maximal nonempty runs of
non-whitespace characters. -/
def pySplitWs (s : String) : List String :=
  go s.data []
where
  /-- Scan accumulating the current word reversed. -/
  go : List Char → List Char → List String
  | [], cur => if cur.isEmpty then [] else [⟨cur.reverse⟩]
  | c :: rest, cur =>
      if c.isWhitespace then
        if cur.isEmpty then go rest [] else ⟨cur.reverse⟩ :: go rest []
      else go rest (c :: cur)

/-- BeautifulSoup `class_=c` matching: `c` is among the whitespace
separated tokens of the `class` attribute. -/
def Node.hasClass (n : Node) (c : String) : Bool :=
  match n.getAttr "class" with
  | some v => (pySplitWs v).contains c
  | none => false

mutual
/-- The node together with all of its descendants, in preorder. -/
def Node.selfAndDescendants : Node → List Node
  | .text s => [.text s]
  | .elem t a cs => .elem t a cs :: selfAndDescendantsList cs

/-- Preorder traversal of a forest. -/
def selfAndDescendantsList : List Node → List Node
  | [] => []
  | c :: rest => c.selfAndDescendants ++ selfAndDescendantsList rest
end

/-- All proper descendants of a node, in document (preorder) order. -/
def Node.descendants : Node → List Node
  | .text _ => []
  | .elem _ _ cs => selfAndDescendantsList cs

/-- BeautifulSoup `find_all` restricted by a predicate. -/
def Node.findAllP (n : Node) (p : Node → Bool) : List Node :=
  n.descendants.filter p

/-- BeautifulSoup `find` restricted by a predicate: first matching
descendant in document order, if any. -/
def Node.findP (n : Node) (p : Node → Bool) : Option Node :=
  n.descendants.find? p

/-- Matcher for `find(tag)`. -/
def tagPred (t : String) : Node → Bool :=
  fun n => n.tagIs t

/-- Matcher for `find(tag, class_=c)`. -/
def tagClassPred (t c : String) : Node → Bool :=
  fun n => n.tagIs t && n.hasClass c

/-- Matcher for `find(tag, id=v)`. -/
def tagIdPred (t v : String) : Node → Bool :=
  fun n => n.tagIs t && n.getAttr "id" = some v

/-- Matcher for `find(tag, id=True)`: any tag with an `id` attribute. -/
def tagWithIdPred (t : String) : Node → Bool :=
  fun n => n.tagIs t && (n.getAttr "id").isSome

mutual
/-- The raw text fragments of a subtree, in document order. -/
def Node.textFragments : Node → List String
  | .text s => [s]
  | .elem _ _ cs => textFragmentsList cs

/-- Text fragments of a forest. -/
def textFragmentsList : List Node → List String
  | [] => []
  | c :: rest => c.textFragments ++ textFragmentsList rest
end

/-- `get_text(strip=True)`: stripped nonempty fragments joined with no
separator. -/
def Node.getTextStrip (n : Node) : String :=
  String.join ((n.textFragments.map pyStrip).filter (fun s => s ≠ ""))

/-- `get_text(separator=' ', strip=True)`: stripped nonempty fragments
joined by single spaces. -/
def Node.getTextSepStrip (n : Node) : String :=
  String.intercalate " " ((n.textFragments.map pyStrip).filter (fun s => s ≠ ""))

/-- Python `s.replace(pat, new, 1)`: replace the first occurrence of
`pat`, if any. -/
def replaceFirst (s pat new : String) : String :=
  match pySplitOn s pat with
  | [] => s
  | [_] => s
  | a :: b :: rest => a ++ new ++ String.intercalate pat (b :: rest)

/-- Python `pat in s` for a nonempty pattern. -/
def containsSub (s pat : String) : Bool :=
  (pySplitOn s pat).length > 1

/-- Python `s.split(pat, 1)[0]`: the text before the first occurrence of
`pat` (all of `s` when `pat` does not occur). -/
def beforeFirst (s pat : String) : String :=
  (pySplitOn s pat).headD s

/-- Python `' '.join(s.split())`: collapse whitespace runs to single
spaces and trim the ends. -/
def collapseSpaces (s : String) : String :=
  String.intercalate " " (pySplitWs s)

instance {ε α : Type} [DecidableEq ε] [DecidableEq α] : DecidableEq (Except ε α) :=
  fun x y =>
    match x, y with
    | .error a, .error b =>
        if h : a = b then isTrue (by rw [h])
        else isFalse (by intro hh; injection hh; exact h (by assumption))
    | .ok a, .ok b =>
        if h : a = b then isTrue (by rw [h])
        else isFalse (by intro hh; injection hh; exact h (by assumption))
    | .error _, .ok _ => isFalse (by intro hh; exact Except.noConfusion hh)
    | .ok _, .error _ => isFalse (by intro hh; exact Except.noConfusion hh)

/-- Outcome of `requests.get(url)` followed by `raise_for_status()`:
either a parsed document or a request error. -/
inductive FetchResult where
  | ok (doc : Node)
  | requestError (msg : String)

/-- A ribbon record, `{'name': ..., 'image_url': ..., 'description': ...}`. -/
structure RibbonRecord where
  name : String
  image_url : Option String
  description : String
deriving Repr, DecidableEq

/-- Image extraction for one ribbon row (lines 41-48 of the script):
take the `src` of the first `img` in the first cell, making relative
URLs absolute with the `"https://www.serebii.net/games/"` base. -/
def extractRibbonImage (image_column : Node) : Option String :=
  match image_column.findP (tagPred "img") with
  | some img_tag =>
      match img_tag.getAttr "src" with
      | some image_url =>
          if pyStartsWith image_url "http" then some image_url
          else some ("https://www.serebii.net/games/" ++ image_url)
      | none => none
  | none => none

/-- Per-row ribbon record builder (lines 33-60): rows with fewer than 3
`td` cells yield nothing. -/
def processRibbonRow (row : Node) : Option RibbonRecord :=
  match row.findAllP (tagPred "td") with
  | image_column :: name_column :: description_column :: _ =>
      some { name := name_column.getTextStrip,
             image_url := extractRibbonImage image_column,
             description := description_column.getTextSepStrip }
  | _ => none

/-- The body of `scrape_pokemon_ribbons` on a parsed document: locate
the `dextable` table, else log and return `[]`; then build one record
per qualifying row after the header row.  The second component collects
the `print` diagnostics. -/
def scrape_pokemon_ribbons_doc (soup : Node) : List RibbonRecord × List String :=
  match soup.findP (tagClassPred "table" "dextable") with
  | none => ([], ["Error: Could not find the ribbon table."])
  | some ribbon_table =>
      (((ribbon_table.findAllP (tagPred "tr")).drop 1).filterMap processRibbonRow, [])

/-- `scrape_pokemon_ribbons`: request errors are caught and logged and
the accumulated (empty) list is returned. -/
def scrape_pokemon_ribbons : FetchResult → List RibbonRecord × List String
  | .requestError e => ([], ["Error making request: " ++ e])
  | .ok soup => scrape_pokemon_ribbons_doc soup

/-- A gym badge record. -/
structure BadgeRecord where
  name : String
  image_url : Option String
  description : String
deriving Repr, DecidableEq

/-- Image extraction for one badge row (lines 127-137): prefer the
`data-src` over the `src` attribute of the first
`img.mw-file-element`; nonempty relative URLs get the
`"https://pokemon.fandom.com"` base prepended. -/
def extractBadgeImage (image_column : Node) : Option String :=
  let raw :=
    match image_column.findP (tagClassPred "img" "mw-file-element") with
    | some img_tag =>
        match img_tag.getAttr "data-src" with
        | some v => some v
        | none => img_tag.getAttr "src"
    | none => none
  match raw with
  | some image_url =>
      if image_url ≠ "" && !(pyStartsWith image_url "http") then
        some ("https://pokemon.fandom.com" ++ image_url)
      else some image_url
  | none => none

/-- Name extraction for one badge row (lines 140-150): the first bold
tag's stripped text with every occurrence of `"The "` removed; else the
first span carrying an `id`, treated the same way; else the placeholder
`"Unnamed Badge"`. -/
def extractBadgeName (info_column : Node) : String :=
  match info_column.findP (tagPred "b") with
  | some name_tag => pyReplace (name_tag.getTextStrip) "The " ""
  | none =>
      match info_column.findP (tagWithIdPred "span") with
      | some span_with_id => pyReplace (span_with_id.getTextStrip) "The " ""
      | none => "Unnamed Badge"

/-- Description heuristics for one badge row (lines 157-178): strip a
`"The {name}"` prefix once, else remove the first occurrence of the
name; truncate at `"Abilities:"` when the remainder starts with
`"is given out at"` or contains the marker; collapse whitespace. -/
def cleanDescription (badge_name full_info_text : String) : String :=
  let d1 :=
    if badge_name ≠ "" && pyStartsWith full_info_text ("The " ++ badge_name) then
      pyStrip (replaceFirst full_info_text ("The " ++ badge_name) "")
    else if badge_name ≠ "" then
      pyStrip (replaceFirst full_info_text badge_name "")
    else full_info_text
  let d2 :=
    if pyStartsWith d1 "is given out at" then pyStrip (beforeFirst d1 "Abilities:")
    else if containsSub d1 "Abilities:" then pyStrip (beforeFirst d1 "Abilities:")
    else d1
  collapseSpaces d2

mutual
/-- BeautifulSoup `target.find_next_sibling(matching p)` performed from
the root: locate the first preorder occurrence of `target` and scan its
following siblings for the first node matching `p`. -/
def findSiblingAfterNode : Node → Node → (Node → Bool) → Option Node
  | .text _, _, _ => none
  | .elem _ _ cs, target, p => findSiblingAfterIn cs target p

/-- Sibling search inside a forest. -/
def findSiblingAfterIn : List Node → Node → (Node → Bool) → Option Node
  | [], _, _ => none
  | c :: rest, target, p =>
      if c = target then rest.find? p
      else
        match findSiblingAfterNode c target p with
        | some r => some r
        | none => findSiblingAfterIn rest target p
end

/-- The Paldea special case (lines 181-187):
`soup.find('h2', id='Paldea_League').find_next_sibling('p')`.  When the
heading is absent the attribute access on `None` raises an
`AttributeError`; when the following paragraph is absent the description
falls back to the unprocessed full info-cell text. -/
def paldeaDescription (soup : Node) (full_info_text : String) : Except String String :=
  match soup.findP (tagIdPred "h2" "Paldea_League") with
  | none => Except.error "AttributeError: NoneType object has no attribute find_next_sibling"
  | some heading =>
      match findSiblingAfterNode soup heading (tagPred "p") with
      | some paldea_desc_p => Except.ok paldea_desc_p.getTextStrip
      | none => Except.ok full_info_text

/-- Per-row badge record builder (lines 120-193): rows with fewer than 2
`td` cells yield nothing; rows whose name resolves to the placeholder
re-derive their description from the Paldea heading, possibly raising. -/
def processBadgeRow (soup row : Node) : Except String (Option BadgeRecord) :=
  match row.findAllP (tagPred "td") with
  | image_column :: info_column :: _ =>
      let image_url := extractBadgeImage image_column
      let badge_name := extractBadgeName info_column
      let full_info_text := info_column.getTextSepStrip
      let description := cleanDescription badge_name full_info_text
      if badge_name = "Unnamed Badge" then
        match paldeaDescription soup full_info_text with
        | Except.error e => Except.error e
        | Except.ok d =>
            Except.ok (some { name := badge_name, image_url := image_url, description := d })
      else
        Except.ok (some { name := badge_name, image_url := image_url, description := description })
  | _ => Except.ok none

/-- Advance to the next element sibling: `find_next_sibling()` skips
text nodes.  The state is the suffix of the sibling list whose head is
the current node; the input here is the part after the current node. -/
def nextElemSuffix : List Node → Option (List Node)
  | [] => none
  | c :: rest => if c.isElem then some (c :: rest) else nextElemSuffix rest

/-- Length of the suffix held by an optional cursor. -/
def suffixLen : Option (List Node) → Nat
  | none => 0
  | some l => l.length

theorem nextElemSuffix_le : ∀ {l s : List Node}, nextElemSuffix l = some s → s.length ≤ l.length := by
  intro l
  induction l with
  | nil => intro s h; simp [nextElemSuffix] at h
  | cons c rest ih =>
      intro s h
      by_cases hc : c.isElem
      · simp [nextElemSuffix, hc] at h
        rw [← h]
      · simp [nextElemSuffix, hc] at h
        exact le_trans (ih h) (Nat.le_succ _)

theorem suffixLen_nextElemSuffix (l : List Node) : suffixLen (nextElemSuffix l) ≤ l.length := by
  cases h : nextElemSuffix l with
  | none => simp [suffixLen]
  | some s => simpa [suffixLen] using nextElemSuffix_le h

/-- The inner `while` of the table selection (lines 107-111): starting
from a sibling cursor, collect tables until the next `h2` or `h3`
heading (or the end of the siblings); return the collected tables and
the cursor where the walk stopped. -/
def walkInner : Option (List Node) → List Node × Option (List Node)
  | none => ([], none)
  | some [] => ([], none)
  | some (t :: rest) =>
      if t.tagIs "h2" || t.tagIs "h3" then ([], some (t :: rest))
      else
        let tabs := if t.tagIs "table" then [t] else []
        let next := walkInner (nextElemSuffix rest)
        (tabs ++ next.1, next.2)
termination_by o => suffixLen o
decreasing_by
  simp [suffixLen]
  exact Nat.lt_succ_of_le (suffixLen_nextElemSuffix rest)

theorem walkInner_snd_le : ∀ o, suffixLen (walkInner o).2 ≤ suffixLen o := by
  intro o
  induction o using walkInner.induct with
  | case1 => simp [walkInner, suffixLen]
  | case2 => simp [walkInner, suffixLen]
  | case3 t rest h => simp [walkInner, h]
  | case4 t rest h ih =>
      have h2 := suffixLen_nextElemSuffix rest
      have h3 : suffixLen (some (t :: rest)) = rest.length + 1 := rfl
      simp [walkInner, h]
      omega

/-- The outer `while` of the table selection (lines 100-112): walk the
siblings from the starting heading, collecting tables, sweeping tables
under intermediate `h3` headings, and stopping at the anime-exclusive
heading. -/
def walkOuter (anime : Node) : Option (List Node) → List Node
  | none => []
  | some [] => []
  | some (c :: rest) =>
      if c = anime then []
      else
        let tabs := if c.tagIs "table" then [c] else []
        match hns : nextElemSuffix rest with
        | none => tabs
        | some [] => tabs
        | some (n :: nrest) =>
            if n.tagIs "h3" then
              let inner := walkInner (nextElemSuffix nrest)
              tabs ++ inner.1 ++ walkOuter anime inner.2
            else
              tabs ++ walkOuter anime (some (n :: nrest))
termination_by o => suffixLen o
decreasing_by
  · have h1 : suffixLen (walkInner (nextElemSuffix nrest)).2 ≤ nrest.length :=
      le_trans (walkInner_snd_le _) (suffixLen_nextElemSuffix nrest)
    have h2 : (n :: nrest).length ≤ rest.length := nextElemSuffix_le hns
    simp only [suffixLen, List.length_cons] at h1 h2 ⊢
    omega
  · have h2 : (n :: nrest).length ≤ rest.length := nextElemSuffix_le hns
    simp only [suffixLen, List.length_cons] at h2 ⊢
    omega

mutual
/-- Locate the first preorder occurrence of `target` and return the
suffix of its sibling list starting at it (the cursor from which the
sibling walk proceeds). -/
def suffixFrom : Node → Node → Option (List Node)
  | .text _, _ => none
  | .elem _ _ cs, target => suffixFromList cs target

/-- Cursor search inside a forest. -/
def suffixFromList : List Node → Node → Option (List Node)
  | [], _ => none
  | c :: rest, target =>
      if c = target then some (c :: rest)
      else
        match suffixFrom c target with
        | some s => some s
        | none => suffixFromList rest target
end

/-- Table selection of `scrape_gym_badges` (lines 89-114): with the
anime-exclusive heading present, walk the siblings from the
`Indigo_League` heading (selecting nothing when that heading is
absent); otherwise every `table.prettytable` is relevant. -/
def relevantTables (soup : Node) : List Node :=
  let content_tables := soup.findAllP (tagClassPred "table" "prettytable")
  match soup.findP (tagIdPred "h2" "Anime_exclusive") with
  | some anime =>
      match soup.findP (tagIdPred "h2" "Indigo_League") with
      | some start_element => walkOuter anime (suffixFrom soup start_element)
      | none => []
  | none => content_tables

/-- The row loop of `scrape_gym_badges` over one table's data rows,
threading the accumulated records; an exception aborts the loop keeping
what was accumulated. -/
def processBadgeRows (soup : Node) (acc : List BadgeRecord) :
    List Node → List BadgeRecord × Option String
  | [] => (acc, none)
  | row :: rest =>
      match processBadgeRow soup row with
      | Except.error e => (acc, some e)
      | Except.ok none => processBadgeRows soup acc rest
      | Except.ok (some rec) => processBadgeRows soup (acc ++ [rec]) rest

/-- The table loop of `scrape_gym_badges` (lines 116-193): tables with
more than one row contribute their rows after the header row. -/
def processBadgeTables (soup : Node) (acc : List BadgeRecord) :
    List Node → List BadgeRecord × Option String
  | [] => (acc, none)
  | table :: rest =>
      let rows := table.findAllP (tagPred "tr")
      if rows.length > 1 then
        match processBadgeRows soup acc (rows.drop 1) with
        | (acc2, none) => processBadgeTables soup acc2 rest
        | (acc2, some e) => (acc2, some e)
      else processBadgeTables soup acc rest

/-- The body of `scrape_gym_badges` on a parsed document; an exception
is caught, logged, and the accumulated records are returned. -/
def scrape_gym_badges_doc (soup : Node) : List BadgeRecord × List String :=
  match processBadgeTables soup [] (relevantTables soup) with
  | (recs, none) => (recs, [])
  | (recs, some e) => (recs, ["An unexpected error occurred during scraping: " ++ e])

/-- `scrape_gym_badges`: request errors are caught and logged and the
accumulated (empty) list is returned. -/
def scrape_gym_badges : FetchResult → List BadgeRecord × List String
  | .requestError e => ([], ["Error making request: " ++ e])
  | .ok soup => scrape_gym_badges_doc soup

/-- JSON string escaping (backslash, quote and common control
characters; non-ASCII characters are passed through unescaped, as with
`ensure_ascii=False`). -/
def jsonEscape (s : String) : String :=
  s.data.foldl (fun acc c =>
    acc ++ (if c = '\\' then "\\\\"
            else if c = '"' then "\\\""
            else if c = '\n' then "\\n"
            else if c = '\t' then "\\t"
            else if c = '\r' then "\\r"
            else String.singleton c)) ""

/-- A JSON string literal. -/
def jsonStr (s : String) : String :=
  "\"" ++ jsonEscape s ++ "\""

/-- A JSON string literal or `null`. -/
def jsonOptStr : Option String → String
  | none => "null"
  | some s => jsonStr s

/-- One badge object of `json.dumps(..., indent=4)`. -/
def badgeJson (r : BadgeRecord) : String :=
  "    \x7b\n        \"name\": " ++ jsonStr r.name ++
    ",\n        \"image_url\": " ++ jsonOptStr r.image_url ++
    ",\n        \"description\": " ++ jsonStr r.description ++ "\n    \x7d"

/-- `json.dumps(badges, indent=4, ensure_ascii=False)`. -/
def jsonDumpsBadges (rs : List BadgeRecord) : String :=
  if rs.isEmpty then "[]"
  else "[\n" ++ String.intercalate ",\n" (rs.map badgeJson) ++ "\n]"

/-- One ribbon object of `json.dumps(..., indent=4)`. -/
def ribbonJson (r : RibbonRecord) : String :=
  "    \x7b\n        \"name\": " ++ jsonStr r.name ++
    ",\n        \"image_url\": " ++ jsonOptStr r.image_url ++
    ",\n        \"description\": " ++ jsonStr r.description ++ "\n    \x7d"

/-- `json.dumps(ribbons, indent=4)`. -/
def jsonDumpsRibbons (rs : List RibbonRecord) : String :=
  if rs.isEmpty then "[]"
  else "[\n" ++ String.intercalate ",\n" (rs.map ribbonJson) ++ "\n]"

/-- The externally observable effects of one driver stage: lines printed
to standard output and file writes performed, in order. -/
structure DriverEffects where
  stdout : List String
  writes : List (String × String)
deriving Repr, DecidableEq

/-- The badge half of the `__main__` driver (lines 205-213): a nonempty
result list is serialized, printed and written to
`pokemon_gym_badges.json`; an empty one only prints a diagnostic. -/
def runBadgeStage (all_gym_badges : List BadgeRecord) : DriverEffects :=
  if all_gym_badges.isEmpty then
    { stdout := ["No gym badge data was scraped."], writes := [] }
  else
    let json_output := jsonDumpsBadges all_gym_badges
    { stdout := [json_output, "\nGym badge data saved to pokemon_gym_badges.json"],
      writes := [("pokemon_gym_badges.json", json_output)] }

/-- The ribbon half of the `__main__` driver (lines 219-229). -/
def runRibbonStage (all_ribbons : List RibbonRecord) : DriverEffects :=
  if all_ribbons.isEmpty then
    { stdout := ["No ribbon data was scraped."], writes := [] }
  else
    let json_output := jsonDumpsRibbons all_ribbons
    { stdout := [json_output, "\nRibbon data saved to pokemon_ribbons.json"],
      writes := [("pokemon_ribbons.json", json_output)] }

/-- The whole driver: badge stage then ribbon stage. -/
def mainDriver (badges : List BadgeRecord) (ribbons : List RibbonRecord) : DriverEffects :=
  let b := runBadgeStage badges
  let r := runRibbonStage ribbons
  { stdout := b.stdout ++ r.stdout, writes := b.writes ++ r.writes }

/-- Apply a list of file writes to a file system (file name to content),
in order; `open(name, "w")` truncates, so each write overwrites. -/
def applyWrites : (String → Option String) → List (String × String) → (String → Option String)
  | fs, [] => fs
  | fs, (n, c) :: rest => applyWrites (fun m => if m = n then some c else fs m) rest

/-! Concrete documents used by the claim theorems. -/

/-- Ribbons document whose single data row carries a relative image URL. -/
def c2Doc : Node := .elem "html" [] [
  .elem "table" [("class", "dextable")] [
    .elem "tr" [] [.elem "th" [] [.text "h"]],
    .elem "tr" [] [
      .elem "td" [] [.elem "img" [("src", "/img/r1.png")] []],
      .elem "td" [] [.text "Cool Ribbon"],
      .elem "td" [] [.text "A ribbon."]]]]

/-- A ribbon row whose image source is relative. -/
def c2WRow : Node := .elem "tr" [] [
  .elem "td" [] [.elem "img" [("src", "/img/r2.png")] []],
  .elem "td" [] [.text "Neat Ribbon"],
  .elem "td" [] [.text "Another ribbon."]]

/-- Badge info cell with the Boulder Badge phrasing. -/
def c3Info : Node := .elem "td" [] [
  .text "The ", .elem "b" [] [.text "Boulder Badge"],
  .text " is given out at Pewter City Gym. Abilities: Use Strength."]

/-- Badge row holding `c3Info`. -/
def c3Row : Node := .elem "tr" [] [.elem "td" [] [], c3Info]

/-- Document holding `c3Row`. -/
def c3Soup : Node := .elem "html" [] [c3Row]

/-- Badge info cell whose bold text contains two occurrences of
`"The "`. -/
def c9Cell : Node := .elem "td" [] [.elem "b" [] [.text "The Badge of The Sea"]]

/-- The bold tag inside `c9Cell`. -/
def c9Bold : Node := .elem "b" [] [.text "The Badge of The Sea"]

/-- Badges document with the anime-exclusive heading but no
`Indigo_League` heading, and a badge table present. -/
def c10Doc : Node := .elem "html" [] [
  .elem "h2" [("id", "Anime_exclusive")] [.text "Anime exclusive"],
  .elem "table" [("class", "prettytable")] [
    .elem "tr" [] [.elem "th" [] [.text "h"]],
    .elem "tr" [] [.elem "td" [] [], .elem "td" [] [.elem "b" [] [.text "Some Badge"]]]]]

/-- Badges document without the anime-exclusive heading and with two
generically-styled tables in different positions. -/
def c5Doc : Node := .elem "html" [] [
  .elem "table" [("class", "prettytable")] [.elem "tr" [] []],
  .elem "div" [] [
    .elem "table" [("class", "prettytable sortable")] [.elem "tr" [] []]]]

/-- Ribbons document with no `dextable` table. -/
def c7Doc : Node := .elem "html" [] [
  .elem "table" [("class", "other")] [.elem "tr" [] []]]

/-! Claim theorems. -/

/-- C2 (counterexample): the script's base URL ends in a slash, so the
relative source `"/img/r1.png"` becomes
`"https://www.serebii.net/games//img/r1.png"` (double slash), not the
claimed `"https://www.serebii.net/games" ++ "/img/r1.png"`. -/
theorem C2_counterexample :
    (scrape_pokemon_ribbons (FetchResult.ok c2Doc)).1.map RibbonRecord.image_url
        = [some "https://www.serebii.net/games//img/r1.png"] ∧
    "https://www.serebii.net/games//img/r1.png"
        ≠ "https://www.serebii.net/games" ++ "/img/r1.png" := by
  decide

/-- C2 (amended): a ribbon row whose image source starts with `"http"`
keeps it unchanged; a relative source is prefixed with the base
`"https://www.serebii.net/games/"` (trailing slash included), so
`"/img/r1.png"` yields `"https://www.serebii.net/games//img/r1.png"`. -/
theorem C2_image_url (row image_column name_column description_column img_tag : Node)
    (rest : List Node) (s : String)
    (hcols : row.findAllP (tagPred "td")
        = image_column :: name_column :: description_column :: rest)
    (himg : image_column.findP (tagPred "img") = some img_tag)
    (hsrc : img_tag.getAttr "src" = some s) :
    processRibbonRow row = some
      { name := name_column.getTextStrip,
        image_url := some (if pyStartsWith s "http" then s
          else "https://www.serebii.net/games/" ++ s),
        description := description_column.getTextSepStrip } := by
  simp only [processRibbonRow, hcols, extractRibbonImage, himg, hsrc]
  split <;> simp

/-- C2 witness: the amended theorem applied to a concrete relative-URL
row. -/
theorem C2_image_url_witness :
    processRibbonRow c2WRow = some
      { name := (Node.elem "td" [] [.text "Neat Ribbon"]).getTextStrip,
        image_url := some (if pyStartsWith "/img/r2.png" "http" then "/img/r2.png"
          else "https://www.serebii.net/games/" ++ "/img/r2.png"),
        description := (Node.elem "td" [] [.text "Another ribbon."]).getTextSepStrip } :=
  C2_image_url c2WRow
    (Node.elem "td" [] [.elem "img" [("src", "/img/r2.png")] []])
    (Node.elem "td" [] [.text "Neat Ribbon"])
    (Node.elem "td" [] [.text "Another ribbon."])
    (Node.elem "img" [("src", "/img/r2.png")] []) [] "/img/r2.png"
    (by decide) (by decide) (by decide)

/-- C3: the Boulder Badge info cell produces the description
`"is given out at Pewter City Gym."` through the cleanup chain. -/
theorem C3_boulder :
    c3Info.getTextSepStrip
        = "The Boulder Badge is given out at Pewter City Gym. Abilities: Use Strength." ∧
    extractBadgeName c3Info = "Boulder Badge" ∧
    cleanDescription "Boulder Badge"
        "The Boulder Badge is given out at Pewter City Gym. Abilities: Use Strength."
        = "is given out at Pewter City Gym." ∧
    processBadgeRow c3Soup c3Row = Except.ok (some
      { name := "Boulder Badge", image_url := none,
        description := "is given out at Pewter City Gym." }) := by
  decide

/-- C5: with the anime-exclusive heading absent, every
`table.prettytable` in the document is relevant, with no positional
filtering. -/
theorem C5_all_tables (soup : Node)
    (h : soup.findP (tagIdPred "h2" "Anime_exclusive") = none) :
    relevantTables soup = soup.findAllP (tagClassPred "table" "prettytable") := by
  simp [relevantTables, h]

/-- C5 witness: applied to a document with two generically-styled
tables and no anime-exclusive heading. -/
theorem C5_all_tables_witness :
    relevantTables c5Doc = c5Doc.findAllP (tagClassPred "table" "prettytable") :=
  C5_all_tables c5Doc (by decide)

/-- C7: with no `dextable` table the ribbon extractor returns `[]` with
a diagnostic, and a request error likewise yields `[]` with a logged
message; the embedding is a total function, so no exception escapes. -/
theorem C7_fail_closed (soup : Node) (e : String)
    (h : soup.findP (tagClassPred "table" "dextable") = none) :
    scrape_pokemon_ribbons (FetchResult.ok soup)
        = ([], ["Error: Could not find the ribbon table."]) ∧
    scrape_pokemon_ribbons (FetchResult.requestError e)
        = ([], ["Error making request: " ++ e]) := by
  constructor
  · simp [scrape_pokemon_ribbons, scrape_pokemon_ribbons_doc, h]
  · simp [scrape_pokemon_ribbons]

/-- C7 witness: applied to a document without the ribbon table and to a
concrete request error. -/
theorem C7_fail_closed_witness :
    scrape_pokemon_ribbons (FetchResult.ok c7Doc)
        = ([], ["Error: Could not find the ribbon table."]) ∧
    scrape_pokemon_ribbons (FetchResult.requestError "timeout")
        = ([], ["Error making request: " ++ "timeout"]) :=
  C7_fail_closed c7Doc "timeout" (by decide)

/-- C9 (counterexample): for bold text `"The Badge of The Sea"` the
script removes every occurrence of `"The "` (Python `str.replace` with
no count), giving `"Badge of Sea"`, while deleting only the first
occurrence would give `"Badge of The Sea"`. -/
theorem C9_counterexample :
    extractBadgeName c9Cell = "Badge of Sea" ∧
    replaceFirst (c9Bold.getTextStrip) "The " "" = "Badge of The Sea" ∧
    extractBadgeName c9Cell ≠ replaceFirst (c9Bold.getTextStrip) "The " "" := by
  decide

/-- C9 (amended): the badge name is the bold tag's stripped text with
every occurrence of `"The "` deleted, wherever it occurs; the same
applies to the span-with-id fallback. -/
theorem C9_name_replace_all (info_column : Node) :
    (∀ name_tag, info_column.findP (tagPred "b") = some name_tag →
      extractBadgeName info_column = pyReplace (name_tag.getTextStrip) "The " "") ∧
    (info_column.findP (tagPred "b") = none →
      ∀ span_with_id, info_column.findP (tagWithIdPred "span") = some span_with_id →
        extractBadgeName info_column = pyReplace (span_with_id.getTextStrip) "The " "") := by
  constructor
  · intro t ht
    simp [extractBadgeName, ht]
  · intro hb sp hsp
    simp [extractBadgeName, hb, hsp]

/-- C9 witness: the amended theorem applied to the concrete bold cell. -/
theorem C9_name_replace_all_witness :
    extractBadgeName c9Cell = pyReplace (c9Bold.getTextStrip) "The " "" :=
  (C9_name_replace_all c9Cell).1 c9Bold (by decide)

/-- C10: with the anime-exclusive heading present but the
`Indigo_League` heading absent, no tables are selected and the badge
extractor returns the empty list without diagnostics. -/
theorem C10_missing_start (soup anime : Node)
    (ha : soup.findP (tagIdPred "h2" "Anime_exclusive") = some anime)
    (hi : soup.findP (tagIdPred "h2" "Indigo_League") = none) :
    relevantTables soup = [] ∧ scrape_gym_badges (FetchResult.ok soup) = ([], []) := by
  have h1 : relevantTables soup = [] := by
    simp [relevantTables, ha, hi]
  refine ⟨h1, ?_⟩
  simp [scrape_gym_badges, scrape_gym_badges_doc, h1, processBadgeTables]

/-- C10 witness: applied to a document with the anime heading, a badge
table, and no starting league heading. -/
theorem C10_missing_start_witness :
    relevantTables c10Doc = [] ∧ scrape_gym_badges (FetchResult.ok c10Doc) = ([], []) :=
  C10_missing_start c10Doc
    (Node.elem "h2" [("id", "Anime_exclusive")] [.text "Anime exclusive"])
    (by decide) (by decide)

/-- Badges document whose unnamed badge row appears in a document with
no `Paldea_League` heading at all. -/
def c1Doc : Node := .elem "html" [] [
  .elem "table" [("class", "prettytable")] [
    .elem "tr" [] [.elem "th" [] [.text "Badge"]],
    .elem "tr" [] [.elem "td" [] [], .elem "td" [] [.text "Mystery badge text"]]]]

/-- Paragraph following the Paldea heading in the C1 witness document. -/
def c1WPara : Node := .elem "p" [] [.text "  Paldea badges are embedded. "]

/-- Paldea heading of the C1 witness document. -/
def c1WHeading : Node := .elem "h2" [("id", "Paldea_League")] [.text "Paldea League"]

/-- Info cell of the C1 witness row: no bold tag, no span with id. -/
def c1WInfo : Node := .elem "td" [] [.text "Mystery badge text"]

/-- The C1 witness row. -/
def c1WRow : Node := .elem "tr" [] [.elem "td" [] [], c1WInfo]

/-- The C1 witness document: unnamed badge row, Paldea heading with a
following paragraph. -/
def c1WSoup : Node := .elem "html" [] [c1WHeading, c1WPara,
  .elem "table" [("class", "prettytable")] [
    .elem "tr" [] [.elem "th" [] [.text "Badge"]], c1WRow]]

/-- Rows whose name resolves to the placeholder take their description
from the Paldea special case; this spells out the resulting
`processBadgeRow`. -/
theorem processBadgeRow_unnamed (soup row image_column info_column : Node) (rest : List Node)
    (hcols : row.findAllP (tagPred "td") = image_column :: info_column :: rest)
    (hname : extractBadgeName info_column = "Unnamed Badge") :
    processBadgeRow soup row =
      (paldeaDescription soup info_column.getTextSepStrip).map (fun d =>
        some { name := "Unnamed Badge", image_url := extractBadgeImage image_column,
               description := d }) := by
  cases hpd : paldeaDescription soup info_column.getTextSepStrip with
  | error e => simp [processBadgeRow, hcols, hname, hpd, Except.map]
  | ok d => simp [processBadgeRow, hcols, hname, hpd, Except.map]

/-- C1 (counterexample): in a document with an unnamed badge row but no
`"Paldea League"` heading, no record is emitted at all — the heading
lookup raises, the loop aborts, and the extractor returns the records
accumulated so far (none) plus a diagnostic — contradicting the claim
that the record is still emitted with the full info-cell text. -/
theorem C1_counterexample :
    (scrape_gym_badges (FetchResult.ok c1Doc)).1 = [] ∧
    (scrape_gym_badges (FetchResult.ok c1Doc)).1
        ≠ [{ name := "Unnamed Badge", image_url := none,
             description := "Mystery badge text" }] ∧
    (scrape_gym_badges (FetchResult.ok c1Doc)).2
        = ["An unexpected error occurred during scraping: " ++
           "AttributeError: NoneType object has no attribute find_next_sibling"] := by
  decide

/-- C1 (amended): for an unnamed-badge row, when the Paldea heading is
present the description is the following paragraph's stripped text, or
the unprocessed full info-cell text when that paragraph is missing, and
the record is emitted; when the heading itself is absent the row raises
instead of being emitted. -/
theorem C1_paldea (soup row image_column info_column : Node) (rest : List Node)
    (hcols : row.findAllP (tagPred "td") = image_column :: info_column :: rest)
    (hname : extractBadgeName info_column = "Unnamed Badge") :
    (∀ h, soup.findP (tagIdPred "h2" "Paldea_League") = some h →
      (∀ p, findSiblingAfterNode soup h (tagPred "p") = some p →
        processBadgeRow soup row = Except.ok (some
          { name := "Unnamed Badge", image_url := extractBadgeImage image_column,
            description := p.getTextStrip })) ∧
      (findSiblingAfterNode soup h (tagPred "p") = none →
        processBadgeRow soup row = Except.ok (some
          { name := "Unnamed Badge", image_url := extractBadgeImage image_column,
            description := info_column.getTextSepStrip }))) ∧
    (soup.findP (tagIdPred "h2" "Paldea_League") = none →
      processBadgeRow soup row = Except.error
        "AttributeError: NoneType object has no attribute find_next_sibling") := by
  have hrow := processBadgeRow_unnamed soup row image_column info_column rest hcols hname
  refine ⟨fun h hh => ⟨fun p hp => ?_, fun hnp => ?_⟩, fun hn => ?_⟩
  · rw [hrow]; simp [paldeaDescription, hh, hp, Except.map]
  · rw [hrow]; simp [paldeaDescription, hh, hnp, Except.map]
  · rw [hrow]; simp [paldeaDescription, hn, Except.map]

/-- C1 witness: the amended theorem applied to a concrete document with
the Paldea heading and its paragraph. -/
theorem C1_paldea_witness :
    processBadgeRow c1WSoup c1WRow = Except.ok (some
      { name := "Unnamed Badge", image_url := extractBadgeImage (Node.elem "td" [] []),
        description := c1WPara.getTextStrip }) :=
  ((C1_paldea c1WSoup c1WRow (Node.elem "td" [] []) c1WInfo [] (by decide) (by decide)).1
      c1WHeading (by decide)).1 c1WPara (by decide)

/-- Ribbons document whose data row has an empty name cell. -/
def c4Doc : Node := .elem "html" [] [
  .elem "table" [("class", "dextable")] [
    .elem "tr" [] [.elem "th" [] [.text "h"]],
    .elem "tr" [] [.elem "td" [] [], .elem "td" [] [], .elem "td" [] [.text "desc"]]]]

/-- Info cell of the C4 witness row: no bold tag, no span with id. -/
def c4WInfo : Node := .elem "td" [] [.text "plain cell text"]

/-- The C4 witness row. -/
def c4WRow : Node := .elem "tr" [] [.elem "td" [] [], c4WInfo]

/-- The C4 witness document, with a Paldea heading so the placeholder
row is actually emitted. -/
def c4WSoup : Node := .elem "html" [] [
  .elem "h2" [("id", "Paldea_League")] [.text "Paldea League"],
  .elem "p" [] [.text "Paldea text."],
  .elem "table" [("class", "prettytable")] [
    .elem "tr" [] [.elem "th" [] [.text "Badge"]], c4WRow]]

/-- C4 (counterexample): the ribbon extractor emits a record whose name
is the empty string when the row's name cell has no text, contradicting
the claim that no emitted record ever has an empty name. -/
theorem C4_counterexample :
    (scrape_pokemon_ribbons (FetchResult.ok c4Doc)).1
        = [{ name := "", image_url := none, description := "desc" }] ∧
    (scrape_pokemon_ribbons (FetchResult.ok c4Doc)).1.map RibbonRecord.name = [""] := by
  decide

/-- C4 (amended): a badge row lacking both a bold tag and a span with
an id gets the placeholder name `"Unnamed Badge"`, and (when the Paldea
heading is present) the record is emitted rather than omitted; ribbon
records take the name cell's stripped text verbatim, which may be
empty. -/
theorem C4_placeholder (soup row image_column info_column : Node) (rest : List Node)
    (hcols : row.findAllP (tagPred "td") = image_column :: info_column :: rest)
    (hb : info_column.findP (tagPred "b") = none)
    (hs : info_column.findP (tagWithIdPred "span") = none)
    (hp : soup.findP (tagIdPred "h2" "Paldea_League") ≠ none) :
    extractBadgeName info_column = "Unnamed Badge" ∧
    (∃ rec, processBadgeRow soup row = Except.ok (some rec) ∧ rec.name = "Unnamed Badge") ∧
    (∀ (rrow i0 n0 d0 : Node) (rrest : List Node),
      rrow.findAllP (tagPred "td") = i0 :: n0 :: d0 :: rrest →
      processRibbonRow rrow = some
        { name := n0.getTextStrip, image_url := extractRibbonImage i0,
          description := d0.getTextSepStrip }) := by
  have hname : extractBadgeName info_column = "Unnamed Badge" := by
    simp [extractBadgeName, hb, hs]
  have hrow := processBadgeRow_unnamed soup row image_column info_column rest hcols hname
  refine ⟨hname, ?_, ?_⟩
  · cases heq : soup.findP (tagIdPred "h2" "Paldea_League") with
    | none => exact absurd heq hp
    | some h =>
        cases hsib : findSiblingAfterNode soup h (tagPred "p") with
        | some p =>
            exact ⟨{ name := "Unnamed Badge", image_url := extractBadgeImage image_column,
                     description := p.getTextStrip },
                   by rw [hrow]; simp [paldeaDescription, heq, hsib, Except.map], rfl⟩
        | none =>
            exact ⟨{ name := "Unnamed Badge", image_url := extractBadgeImage image_column,
                     description := info_column.getTextSepStrip },
                   by rw [hrow]; simp [paldeaDescription, heq, hsib, Except.map], rfl⟩
  · intro rrow i0 n0 d0 rrest hr
    simp [processRibbonRow, hr]

/-- C4 witness: the amended theorem applied to a document whose badge
row has a bare text info cell. -/
theorem C4_placeholder_witness :
    extractBadgeName c4WInfo = "Unnamed Badge" ∧
    (∃ rec, processBadgeRow c4WSoup c4WRow = Except.ok (some rec) ∧
      rec.name = "Unnamed Badge") :=
  have h := C4_placeholder c4WSoup c4WRow (Node.elem "td" [] []) c4WInfo []
    (by decide) (by decide) (by decide) (by decide)
  ⟨h.1, h.2.1⟩

/-- A row with at least three cells always yields a record. -/
theorem processRibbonRow_isSome (row : Node)
    (h3 : 3 ≤ (row.findAllP (tagPred "td")).length) :
    (processRibbonRow row).isSome := by
  cases hl : row.findAllP (tagPred "td") with
  | nil => rw [hl] at h3; simp at h3
  | cons a t1 =>
      cases t1 with
      | nil => rw [hl] at h3; simp at h3
      | cons b t2 =>
          cases t2 with
          | nil => rw [hl] at h3; simp at h3
          | cons c t3 => simp [processRibbonRow, hl]

/-- A row with fewer than three cells yields nothing. -/
theorem processRibbonRow_eq_none (row : Node)
    (h3 : (row.findAllP (tagPred "td")).length < 3) :
    processRibbonRow row = none := by
  cases hl : row.findAllP (tagPred "td") with
  | nil => simp [processRibbonRow, hl]
  | cons a t1 =>
      cases t1 with
      | nil => simp [processRibbonRow, hl]
      | cons b t2 =>
          cases t2 with
          | nil => simp [processRibbonRow, hl]
          | cons c t3 => rw [hl] at h3; simp at h3; omega

/-- `filterMap` over a list on which the function is everywhere `some`
keeps the length and the positions. -/
theorem filterMap_all_isSome {α β : Type} (f : α → Option β) :
    ∀ l : List α, (∀ a ∈ l, (f a).isSome) →
      (l.filterMap f).length = l.length ∧
      ∀ i : Nat, (l.filterMap f)[i]? = (l[i]?).bind f
  | [], _ => by simp
  | a :: as, h => by
      obtain ⟨b, hb⟩ := Option.isSome_iff_exists.mp (h a (by simp))
      have ih := filterMap_all_isSome f as (fun x hx => h x (by simp [hx]))
      constructor
      · simp [List.filterMap_cons, hb, ih.1]
      · intro i
        cases i with
        | zero => simp [List.filterMap_cons, hb]
        | succ j =>
            simp only [List.filterMap_cons, hb, List.getElem?_cons_succ]
            exact ih.2 j

/-- Ribbons document with two qualifying data rows. -/
def c6Table : Node := .elem "table" [("class", "dextable")] [
  .elem "tr" [] [.elem "th" [] [.text "h"]],
  .elem "tr" [] [
    .elem "td" [] [.elem "img" [("src", "http://x/a.png")] []],
    .elem "td" [] [.text "Ribbon A"],
    .elem "td" [] [.text "First."]],
  .elem "tr" [] [
    .elem "td" [] [],
    .elem "td" [] [.text "Ribbon B"],
    .elem "td" [] [.text "Second."]]]

/-- Document holding `c6Table`. -/
def c6Doc : Node := .elem "html" [] [c6Table]

/-- C6: when every row after the header has at least 3 cells, the
extractor returns exactly one record per row, in document order, and a
row with fewer than 3 cells contributes no record. -/
theorem C6_row_records (soup ribbon_table : Node)
    (ht : soup.findP (tagClassPred "table" "dextable") = some ribbon_table)
    (hrows : ∀ r ∈ (ribbon_table.findAllP (tagPred "tr")).drop 1,
      3 ≤ (r.findAllP (tagPred "td")).length) :
    (scrape_pokemon_ribbons (FetchResult.ok soup)).1.length
        = ((ribbon_table.findAllP (tagPred "tr")).drop 1).length ∧
    (∀ i : Nat, ((scrape_pokemon_ribbons (FetchResult.ok soup)).1)[i]?
        = (((ribbon_table.findAllP (tagPred "tr")).drop 1)[i]?).bind processRibbonRow) ∧
    (∀ r : Node, (r.findAllP (tagPred "td")).length < 3 → processRibbonRow r = none) := by
  have hsome : ∀ r ∈ (ribbon_table.findAllP (tagPred "tr")).drop 1,
      (processRibbonRow r).isSome :=
    fun r hr => processRibbonRow_isSome r (hrows r hr)
  have hfm := filterMap_all_isSome processRibbonRow _ hsome
  have hv : (scrape_pokemon_ribbons (FetchResult.ok soup)).1
      = ((ribbon_table.findAllP (tagPred "tr")).drop 1).filterMap processRibbonRow := by
    simp [scrape_pokemon_ribbons, scrape_pokemon_ribbons_doc, ht]
  exact ⟨by rw [hv]; exact hfm.1, fun i => by rw [hv]; exact hfm.2 i,
         fun r hr => processRibbonRow_eq_none r hr⟩

/-- C6 witness: a two-row ribbons document gives two records. -/
theorem C6_row_records_witness :
    (scrape_pokemon_ribbons (FetchResult.ok c6Doc)).1.length
        = ((c6Table.findAllP (tagPred "tr")).drop 1).length :=
  (C6_row_records c6Doc c6Table (by decide) (by decide)).1

/-- A concrete badge record for exercising the driver. -/
def c8Badge : BadgeRecord :=
  { name := "Boulder Badge", image_url := none, description := "A badge." }

/-- A concrete ribbon record for exercising the driver. -/
def c8Ribbon : RibbonRecord :=
  { name := "Cool Ribbon", image_url := none, description := "A ribbon." }

/-- A file system in which the output files already exist, to exhibit
overwriting. -/
def c8Fs : String → Option String :=
  fun _ => some "old contents"

/-- C8: for each driver stage, a nonempty result list is serialized
once, printed, and that same serialization is written to the stage's
fixed output file, overwriting any prior contents; an empty result list
prints a one-line diagnostic and performs no write, leaving the file
system untouched. -/
theorem C8_driver (badges : List BadgeRecord) (ribbons : List RibbonRecord)
    (fs : String → Option String) :
    (badges.isEmpty = false →
      runBadgeStage badges =
        { stdout := [jsonDumpsBadges badges,
            "\nGym badge data saved to pokemon_gym_badges.json"],
          writes := [("pokemon_gym_badges.json", jsonDumpsBadges badges)] } ∧
      applyWrites fs (runBadgeStage badges).writes "pokemon_gym_badges.json"
          = some (jsonDumpsBadges badges)) ∧
    (badges.isEmpty = true →
      runBadgeStage badges
          = { stdout := ["No gym badge data was scraped."], writes := [] } ∧
      applyWrites fs (runBadgeStage badges).writes = fs) ∧
    (ribbons.isEmpty = false →
      runRibbonStage ribbons =
        { stdout := [jsonDumpsRibbons ribbons,
            "\nRibbon data saved to pokemon_ribbons.json"],
          writes := [("pokemon_ribbons.json", jsonDumpsRibbons ribbons)] } ∧
      applyWrites fs (runRibbonStage ribbons).writes "pokemon_ribbons.json"
          = some (jsonDumpsRibbons ribbons)) ∧
    (ribbons.isEmpty = true →
      runRibbonStage ribbons
          = { stdout := ["No ribbon data was scraped."], writes := [] } ∧
      applyWrites fs (runRibbonStage ribbons).writes = fs) := by
  refine ⟨fun hb => ⟨?_, ?_⟩, fun hb => ⟨?_, ?_⟩, fun hr => ⟨?_, ?_⟩, fun hr => ⟨?_, ?_⟩⟩
  · simp [runBadgeStage, hb]
  · simp [runBadgeStage, hb, applyWrites]
  · simp [runBadgeStage, hb]
  · simp [runBadgeStage, hb, applyWrites]
  · simp [runRibbonStage, hr]
  · simp [runRibbonStage, hr, applyWrites]
  · simp [runRibbonStage, hr]
  · simp [runRibbonStage, hr, applyWrites]

/-- C8 witness: the driver theorem instantiated both at concrete
nonempty record lists and at empty ones, over a file system whose
output files already exist, exercising all four branches. -/
theorem C8_driver_witness :
    (runBadgeStage [c8Badge] =
      { stdout := [jsonDumpsBadges [c8Badge],
          "\nGym badge data saved to pokemon_gym_badges.json"],
        writes := [("pokemon_gym_badges.json", jsonDumpsBadges [c8Badge])] } ∧
      applyWrites c8Fs (runBadgeStage [c8Badge]).writes "pokemon_gym_badges.json"
          = some (jsonDumpsBadges [c8Badge])) ∧
    (runBadgeStage ([] : List BadgeRecord)
        = { stdout := ["No gym badge data was scraped."], writes := [] } ∧
      applyWrites c8Fs (runBadgeStage ([] : List BadgeRecord)).writes = c8Fs) ∧
    (runRibbonStage [c8Ribbon] =
      { stdout := [jsonDumpsRibbons [c8Ribbon],
          "\nRibbon data saved to pokemon_ribbons.json"],
        writes := [("pokemon_ribbons.json", jsonDumpsRibbons [c8Ribbon])] } ∧
      applyWrites c8Fs (runRibbonStage [c8Ribbon]).writes "pokemon_ribbons.json"
          = some (jsonDumpsRibbons [c8Ribbon])) ∧
    (runRibbonStage ([] : List RibbonRecord)
        = { stdout := ["No ribbon data was scraped."], writes := [] } ∧
      applyWrites c8Fs (runRibbonStage ([] : List RibbonRecord)).writes = c8Fs) :=
  ⟨(C8_driver [c8Badge] [c8Ribbon] c8Fs).1 (by decide),
   (C8_driver ([] : List BadgeRecord) ([] : List RibbonRecord) c8Fs).2.1 (by decide),
   (C8_driver [c8Badge] [c8Ribbon] c8Fs).2.2.1 (by decide),
   (C8_driver ([] : List BadgeRecord) ([] : List RibbonRecord) c8Fs).2.2.2 (by decide)⟩

end PokeScraper
